import Mathlib

/-!
Shallow embedding of the `sot` btrfs snapshot manager (files
`src/sot/utils.py`, `src/sot/btrfs.py`, and the legacy `snapshot.py`).

Python strings are modelled as `List Char`.  `str.replace(pat, rep)` for the
one- and two-character patterns used by the path codec is modelled by direct
recursion implementing Python's leftmost, non-overlapping replacement.

The SQLite-backed metadata index (`SnapshotStorage`) is modelled as explicit
row lists with the schema constraints of `_create_tables` (UNIQUE, NOT NULL,
foreign keys with ON DELETE CASCADE / SET NULL) enforced or applied by the
operations, as SQLite does.  The `btrfsutil` physical layer is an external
collaborator; it is modelled from the spec's interface description (§6).
-/

/-! ## Path codec (`escape` / `unescape` from `src/sot/utils.py`) -/

/-- Source: `str.strip("/")`: drop leading and trailing `'/'` characters. -/
def stripSlash (l : List Char) : List Char :=
  ((l.dropWhile (fun c => c = '/')).reverse.dropWhile (fun c => c = '/')).reverse

/-- Source: `.replace("%", "%%")`. -/
def repPP : List Char → List Char
  | [] => []
  | c :: rest => if c = '%' then '%' :: '%' :: repPP rest else c :: repPP rest

/-- Source: `.replace("@", "%t")`. -/
def repAt : List Char → List Char
  | [] => []
  | c :: rest => if c = '@' then '%' :: 't' :: repAt rest else c :: repAt rest

/-- Source: `.replace("/", "@")`. -/
def repSlash : List Char → List Char
  | [] => []
  | c :: rest => if c = '/' then '@' :: repSlash rest else c :: repSlash rest

/-- Source: `.replace("@", "/")`. -/
def unrepAt : List Char → List Char
  | [] => []
  | c :: rest => if c = '@' then '/' :: unrepAt rest else c :: unrepAt rest

/-- Source: `.replace("%t", "@")`: leftmost non-overlapping two-character replacement. -/
def unrepPt : List Char → List Char
  | [] => []
  | [c] => [c]
  | c :: d :: rest =>
    if c = '%' ∧ d = 't' then '@' :: unrepPt rest
    else c :: unrepPt (d :: rest)

/-- Source: `.replace("%%", "%")`: leftmost non-overlapping two-character replacement. -/
def unrepPP : List Char → List Char
  | [] => []
  | [c] => [c]
  | c :: d :: rest =>
    if c = '%' ∧ d = '%' then '%' :: unrepPP rest
    else c :: unrepPP (d :: rest)

/-- Source: `escape(path)` from `src/sot/utils.py`:
`str(path).strip("/").replace("%","%%").replace("@","%t").replace("/","@")`. -/
def escape (p : List Char) : List Char :=
  repSlash (repAt (repPP (stripSlash p)))

/-- Source: `unescape(path)` from `src/sot/utils.py`:
`str(path).replace("@","/").replace("%t","@").replace("%%","%")`. -/
def unescape (s : List Char) : List Char :=
  unrepPP (unrepPt (unrepAt s))

/-- The string contains no NUL character. -/
def noNul (p : List Char) : Bool :=
  p.all (fun c => decide (c ≠ Char.ofNat 0))

/-- The string has no occurrence of the two-character substring `"%t"`. -/
def noPt : List Char → Bool
  | [] => true
  | [_] => true
  | c :: d :: rest => !(decide (c = '%') && decide (d = 't')) && noPt (d :: rest)

/-! ### Codec lemmas -/

theorem noPt_tail {c : Char} {l : List Char} (h : noPt (c :: l) = true) :
    noPt l = true := by
  cases l with
  | nil => rfl
  | cons d rest =>
    simp only [noPt, Bool.and_eq_true] at h
    exact h.2

theorem noPt_not_pt {l : List Char} (h : noPt ('%' :: 't' :: l) = true) : False := by
  simp [noPt] at h

theorem at_not_mem_repAt (l : List Char) : '@' ∉ repAt l := by
  induction l with
  | nil => simp [repAt]
  | cons c rest ih =>
    by_cases hc : c = '@'
    · simp only [repAt, if_pos hc]
      intro hmem
      rcases hmem with _ | ⟨_, hmem⟩
      rcases hmem with _ | ⟨_, hmem⟩
      exact ih hmem
    · simp only [repAt, if_neg hc]
      intro hmem
      rcases hmem with _ | ⟨_, hmem⟩
      · exact hc rfl
      · exact ih hmem

theorem slash_not_mem_escape (p : List Char) : '/' ∉ escape p := by
  show '/' ∉ repSlash (repAt (repPP (stripSlash p)))
  generalize repAt (repPP (stripSlash p)) = l
  induction l with
  | nil => simp [repSlash]
  | cons c rest ih =>
    by_cases hc : c = '/'
    · simp only [repSlash, if_pos hc]
      intro hmem
      rcases hmem with _ | ⟨_, hmem⟩
      exact ih hmem
    · simp only [repSlash, if_neg hc]
      intro hmem
      rcases hmem with _ | ⟨_, hmem⟩
      · exact hc rfl
      · exact ih hmem

theorem unrepAt_repSlash {m : List Char} (h : '@' ∉ m) :
    unrepAt (repSlash m) = m := by
  induction m with
  | nil => rfl
  | cons c rest ih =>
    have hc : c ≠ '@' := fun hc => h (hc ▸ List.mem_cons_self c rest)
    have hrest : '@' ∉ rest := fun hm => h (List.mem_cons_of_mem c hm)
    by_cases hsl : c = '/'
    · simp [repSlash, hsl, unrepAt, ih hrest]
    · simp [repSlash, hsl, unrepAt, hc, ih hrest]

theorem unrepPt_cons_ne {c : Char} (l : List Char) (hc : c ≠ '%') :
    unrepPt (c :: l) = c :: unrepPt l := by
  cases l with
  | nil => rfl
  | cons d rest =>
    have : ¬(c = '%' ∧ d = 't') := fun hcd => hc hcd.1
    simp only [unrepPt, if_neg this]

theorem unrepPt_pct {l : List Char} (h : l.head? ≠ some 't') :
    unrepPt ('%' :: l) = '%' :: unrepPt l := by
  cases l with
  | nil => rfl
  | cons d rest =>
    have hd : d ≠ 't' := by
      intro hd
      exact h (by simp [hd])
    simp [unrepPt, hd]

theorem unrepPt_pt (l : List Char) :
    unrepPt ('%' :: 't' :: l) = '@' :: unrepPt l := by
  simp [unrepPt]

theorem unrepPP_cons_ne {c : Char} (l : List Char) (hc : c ≠ '%') :
    unrepPP (c :: l) = c :: unrepPP l := by
  cases l with
  | nil => rfl
  | cons d rest =>
    have : ¬(c = '%' ∧ d = '%') := fun hcd => hc hcd.1
    simp only [unrepPP, if_neg this]

theorem unrepPP_pct_pct (l : List Char) :
    unrepPP ('%' :: '%' :: l) = '%' :: unrepPP l := by
  simp [unrepPP]

theorem repAt_repPP_head_ne_t {l : List Char} (h : l.head? ≠ some 't') :
    (repAt (repPP l)).head? ≠ some 't' := by
  cases l with
  | nil => simp [repPP, repAt]
  | cons c rest =>
    have hc : c ≠ 't' := by
      intro hc
      exact h (by simp [hc])
    by_cases hp : c = '%'
    · simp only [repPP, if_pos hp, repAt]
      have : ('%' : Char) ≠ '@' := by decide
      simp [if_neg this]
    · by_cases ha : c = '@'
      · simp only [repPP, if_neg hp, repAt, if_pos ha]
        simp
      · simp only [repPP, if_neg hp, repAt, if_neg ha]
        simp [hc]

theorem pctNeAt : ('%' : Char) ≠ '@' := by decide

theorem pctNeT : ('%' : Char) ≠ 't' := by decide

theorem atNePct : ('@' : Char) ≠ '%' := by decide

/-- Core round trip: with no `"%t"` substring, undoing the `%`- and
`@`-substitutions recovers the input. -/
theorem unrep_rep (l : List Char) (h : noPt l = true) :
    unrepPP (unrepPt (repAt (repPP l))) = l := by
  induction l with
  | nil => rfl
  | cons c rest ih =>
    have hrest := noPt_tail h
    by_cases hp : c = '%'
    · subst hp
      have hheadt : rest.head? ≠ some 't' := by
        intro hh
        cases rest with
        | nil => simp at hh
        | cons d r =>
          simp only [List.head?] at hh
          injection hh with hd
          subst hd
          exact noPt_not_pt h
      have e1 : repAt (repPP ('%' :: rest)) = '%' :: '%' :: repAt (repPP rest) := by
        simp [repPP, repAt, pctNeAt]
      have e2 : unrepPt ('%' :: '%' :: repAt (repPP rest)) =
          '%' :: unrepPt ('%' :: repAt (repPP rest)) := by
        simp [unrepPt, pctNeT]
      rw [e1, e2, unrepPt_pct (repAt_repPP_head_ne_t hheadt), unrepPP_pct_pct,
        ih hrest]
    · by_cases ha : c = '@'
      · subst ha
        have e1 : repAt (repPP ('@' :: rest)) = '%' :: 't' :: repAt (repPP rest) := by
          simp [repPP, repAt, hp]
        rw [e1, unrepPt_pt, unrepPP_cons_ne _ atNePct, ih hrest]
      · have e1 : repAt (repPP (c :: rest)) = c :: repAt (repPP rest) := by
          simp [repPP, repAt, hp, ha]
        rw [e1, unrepPt_cons_ne _ hp, unrepPP_cons_ne _ hp, ih hrest]

theorem stripSlash_eq {l : List Char} (h1 : l.head? ≠ some '/')
    (h2 : l.getLast? ≠ some '/') : stripSlash l = l := by
  unfold stripSlash
  have hd : l.dropWhile (fun c => c = '/') = l := by
    cases l with
    | nil => rfl
    | cons c rest =>
      have hc : c ≠ '/' := by
        intro hc
        exact h1 (by simp [hc])
      simp [List.dropWhile_cons, hc]
  rw [hd]
  have hrev : l.reverse.head? ≠ some '/' := by
    rw [List.head?_reverse]
    exact h2
  have hd2 : l.reverse.dropWhile (fun c => c = '/') = l.reverse := by
    cases hrl : l.reverse with
    | nil => rfl
    | cons c rest =>
      have hc : c ≠ '/' := by
        intro hc
        rw [hrl] at hrev
        exact hrev (by simp [hc])
      simp [List.dropWhile_cons, hc]
  rw [hd2, List.reverse_reverse]

/-- C1 (amended). `escape(p)` never contains `'/'` for any `p`; and
`unescape(escape(p)) = p` holds for every `p` without a NUL byte, provided
additionally that `p` has no leading or trailing `'/'` (which `strip("/")`
would remove) and no occurrence of the substring `"%t"` (which the sequential
`replace`-based `unescape` mis-parses after `%`-doubling). -/
theorem escape_roundtrip_amended (p : List Char) :
    '/' ∉ escape p ∧
    (noNul p = true → p.head? ≠ some '/' → p.getLast? ≠ some '/' →
      noPt p = true → unescape (escape p) = p) := by
  refine ⟨slash_not_mem_escape p, fun _ h1 h2 h3 => ?_⟩
  show unrepPP (unrepPt (unrepAt (repSlash (repAt (repPP (stripSlash p)))))) = p
  rw [stripSlash_eq h1 h2, unrepAt_repSlash (at_not_mem_repAt _), unrep_rep p h3]

/-- C1 counterexample: the path `"%t"` contains no NUL byte, yet
`unescape(escape("%t")) = "%@" ≠ "%t"`: the round trip fails. -/
theorem escape_roundtrip_counterexample :
    noNul ['%', 't'] = true ∧
    unescape (escape ['%', 't']) = ['%', '@'] ∧
    unescape (escape ['%', 't']) ≠ ['%', 't'] := by
  refine ⟨by decide, by decide, by decide⟩

/-- Witness for `escape_roundtrip_amended` at the concrete path `"a@b%c/d"`:
the hypotheses hold and the round trip recovers the path. -/
theorem escape_roundtrip_amended_witness :
    unescape (escape ['a', '@', 'b', '%', 'c', '/', 'd']) =
      ['a', '@', 'b', '%', 'c', '/', 'd'] ∧
    '/' ∉ escape ['a', '@', 'b', '%', 'c', '/', 'd'] :=
  ⟨(escape_roundtrip_amended ['a', '@', 'b', '%', 'c', '/', 'd']).2
      (by decide) (by decide) (by decide) (by decide),
    (escape_roundtrip_amended ['a', '@', 'b', '%', 'c', '/', 'd']).1⟩

/-! ## Metadata index (`SnapshotStorage` in `src/sot/btrfs.py`)

The three tables of `_create_tables`, as row lists.  `id INTEGER PRIMARY KEY`
is a rowid alias: a fresh rowid is one larger than the largest rowid in the
table, and rows are kept in insertion (= rowid) order. -/

/-- A row of `volumes (id INTEGER PRIMARY KEY, path TEXT UNIQUE)`. -/
structure VolRow where
  id : Nat
  path : String
  deriving DecidableEq

/-- A row of `snapshots (id, volume_id NOT NULL FK, name, time, annotation,
UNIQUE (volume_id, name))`.  The annotation column is nullable. -/
structure SnapRow where
  id : Nat
  volumeId : Nat
  name : String
  time : Nat
  annot : Option String
  deriving DecidableEq

/-- A row of `volumes_head (volume_id PRIMARY KEY FK ON DELETE CASCADE,
head_snapshot_id FK ON DELETE SET NULL)`. -/
structure HeadRow where
  volumeId : Nat
  headSnapshotId : Option Nat
  deriving DecidableEq

/-- The index database. -/
structure DB where
  volumes : List VolRow
  snapshots : List SnapRow
  heads : List HeadRow
  deriving DecidableEq

/-- The in-memory `Volume` object: its `path` (relative to the storage root)
and the lazily hydrated database `id` (`None` = not yet loaded). -/
structure VolumeObj where
  path : String
  id : Option Nat
  deriving DecidableEq

/-- The in-memory `Snapshot` object with its owning `Volume` object. -/
structure SnapObj where
  volume : VolumeObj
  name : String
  time : Nat
  id : Option Nat
  annot : Option String
  deriving DecidableEq

/-- Source: `escape` on `String`s (used for `Volume.name`). -/
def escapeS (s : String) : String :=
  String.mk (escape s.data)

/-- Source: `unescape` on `String`s. -/
def unescapeS (s : String) : String :=
  String.mk (unescape s.data)

/-- Source: `Volume.name = escape(self.path)`. -/
def VolumeObj.volName (v : VolumeObj) : String :=
  escapeS v.path

/-! ## Filesystem paths and state

The paths the program touches: the live subvolume (`STORAGE.root / volume.path`),
a volume's snapshot storage directory (`STORAGE.path / volume.name`), and a
snapshot directory (`volume.storage / snapshot.name`). -/

inductive FsPath where
  /-- Source: `volume.realpath = STORAGE.root / volume.path`. -/
  | real (volPath : String)
  /-- Source: `volume.storage = STORAGE.path / volume.name`. -/
  | snapDir (volName : String)
  /-- Source: `snapshot.path = volume.storage / snapshot.name`. -/
  | snap (volName : String) (snapName : String)
  deriving DecidableEq

/-- Source: `volume.realpath`. -/
def VolumeObj.realpath (v : VolumeObj) : FsPath :=
  .real v.path

/-- Source: `volume.storage`. -/
def VolumeObj.storageDir (v : VolumeObj) : FsPath :=
  .snapDir v.volName

/-- Source: `snapshot.path = self.volume.storage / self.name`. -/
def SnapObj.path (s : SnapObj) : FsPath :=
  .snap s.volume.volName s.name

/-- A directory entry on disk: whether it is a btrfs subvolume, its read-only
flag, whether it is busy (which makes `delete_subvolume` fail), its change
time (`st_ctime`), and an abstract content identifier. -/
structure FsNode where
  isSubvol : Bool
  readonly : Bool
  busy : Bool
  ctime : Nat
  content : Nat
  deriving DecidableEq

/-- The filesystem: a finite map from paths to directory entries. -/
structure FS where
  nodes : List (FsPath × FsNode)
  deriving DecidableEq

def FS.lookup (fs : FS) (p : FsPath) : Option FsNode :=
  (fs.nodes.find? (fun e => decide (e.1 = p))).map (fun e => e.2)

def FS.erase (fs : FS) (p : FsPath) : FS :=
  ⟨fs.nodes.filter (fun e => !decide (e.1 = p))⟩

def FS.insert (fs : FS) (p : FsPath) (n : FsNode) : FS :=
  ⟨(p, n) :: (fs.erase p).nodes⟩

/-! ## Physical primitives (external collaborator) -/

inductive PhysErr where
  | srcMissing
  | srcNotSubvol
  | destExists
  | pathMissing
  | notSubvol
  | busyErr
  deriving DecidableEq

/-- Modelled from the spec: `btrfsutil.create_snapshot(source, dest,
read_only)` — "createSnapshot(source, dest, readonly bool) fails if `dest`
exists or `source` is not a subvolume".  On success the new entry is a
subvolume sharing the source's content, with the requested read-only flag. -/
def createSnapshotPrim (fs : FS) (src dest : FsPath) (ro : Bool) :
    Except PhysErr FS :=
  match fs.lookup src with
  | none => .error .srcMissing
  | some n =>
    if n.isSubvol = false then .error .srcNotSubvol
    else if (fs.lookup dest).isSome then .error .destExists
    else .ok (fs.insert dest ⟨true, ro, false, n.ctime, n.content⟩)

/-- Modelled from the spec: `btrfsutil.delete_subvolume(path)` —
"deleteSubvolume(path) fails if busy or containing nested subvolumes"; it also
fails if the path is missing or is not a subvolume.  Busy-ness stands in for
both documented failure modes. -/
def deleteSubvolumePrim (fs : FS) (p : FsPath) : Except PhysErr FS :=
  match fs.lookup p with
  | none => .error .pathMissing
  | some n =>
    if n.isSubvol = false then .error .notSubvol
    else if n.busy then .error .busyErr
    else .ok (fs.erase p)

/-- Modelled from the spec: `btrfsutil.set_subvolume_read_only(path, b)` —
"setReadOnly(path, bool)"; fails if the path is missing or not a subvolume. -/
def setReadOnlyPrim (fs : FS) (p : FsPath) (b : Bool) : Except PhysErr FS :=
  match fs.lookup p with
  | none => .error .pathMissing
  | some n =>
    if n.isSubvol = false then .error .notSubvol
    else .ok (fs.insert p ⟨n.isSubvol, b, n.busy, n.ctime, n.content⟩)

/-- Modelled from the spec: `btrfsutil.is_subvolume(path)`. -/
def isSubvolPrim (fs : FS) (p : FsPath) : Bool :=
  match fs.lookup p with
  | none => false
  | some n => n.isSubvol

/-- Modelled from the spec: `shutil.move(old, new)` of a snapshot directory
to a fresh destination. -/
def movePrim (fs : FS) (old new : FsPath) : Except PhysErr FS :=
  match fs.lookup old with
  | none => .error .pathMissing
  | some n =>
    if (fs.lookup new).isSome then .error .destExists
    else .ok ((fs.erase old).insert new n)

/-- Source: `Path.mkdir(exist_ok=True, parents=True)`: create the directory if it is
not already present. -/
def mkdirP (fs : FS) (p : FsPath) : FS :=
  if (fs.lookup p).isSome then fs else fs.insert p ⟨false, false, false, 0, 0⟩

/-! ## Storage operations (`SnapshotStorage` methods) -/

inductive SotErr where
  | notASubvolume
  | subvolumeNotFound
  | snapshotNotFound
  | snapshotExists
  | noSnapshots
  | physical (e : PhysErr)
  | integrity
  deriving DecidableEq

def DB.findVolByPath (db : DB) (p : String) : Option VolRow :=
  db.volumes.find? (fun r => decide (r.path = p))

def DB.volIds (db : DB) : List Nat :=
  db.volumes.map (fun r => r.id)

/-- Source: `load(volume)`: no-op when `id` is already set, else hydrate `id` by path
(leaving it unset when the volume has no row). -/
def loadVolume (db : DB) (v : VolumeObj) : VolumeObj :=
  if v.id.isSome then v
  else
    match db.findVolByPath v.path with
    | some r => { v with id := some r.id }
    | none => v

/-- Source: `load(snapshot)`: no-op when `id` is already set, else load the parent
volume and hydrate `id`/`time`/`annotation` by `(volume_id, name)`, raising
`SnapshotNotFound` when there is no such row. -/
def loadSnapshot (db : DB) (s : SnapObj) : Except SotErr SnapObj :=
  if s.id.isSome then .ok s
  else
    let v := loadVolume db s.volume
    match db.snapshots.find?
        (fun r => decide (some r.volumeId = v.id ∧ r.name = s.name)) with
    | none => .error .snapshotNotFound
    | some r =>
      .ok { s with volume := v, time := r.time, id := some r.id, annot := r.annot }

/-- Source: `ON DELETE SET NULL` on `volumes_head.head_snapshot_id`: clear every head
pointer that references one of the deleted snapshot rowids. -/
def setNullHeads (heads : List HeadRow) (deadIds : List Nat) : List HeadRow :=
  heads.map (fun h =>
    match h.headSnapshotId with
    | some j => if j ∈ deadIds then { h with headSnapshotId := none } else h
    | none => h)

/-- A fresh rowid for the `volumes` table. -/
def freshVolId (db : DB) : Nat :=
  (db.volumes.map (fun r => r.id)).foldr max 0 + 1

/-- Source: `register(volume)`: `INSERT OR IGNORE INTO volumes (path)`; when a row was
inserted, set the object's `id` to the new rowid and `INSERT OR IGNORE` an
empty `volumes_head` row; when ignored (path already present), `load` the
object instead. -/
def registerVolume (db : DB) (v : VolumeObj) : DB × VolumeObj :=
  if (db.findVolByPath v.path).isSome then
    (db, loadVolume db v)
  else
    ({ volumes := db.volumes ++ [⟨freshVolId db, v.path⟩],
       snapshots := db.snapshots,
       heads :=
         if (db.heads.find? (fun h => decide (h.volumeId = freshVolId db))).isSome then
           db.heads
         else db.heads ++ [⟨freshVolId db, none⟩] },
     { v with id := some (freshVolId db) })

/-- The snapshot rows displaced by `INSERT OR REPLACE` (same
`(volume_id, name)` unique key). -/
def victimSnaps (db : DB) (vid : Nat) (nm : String) : List SnapRow :=
  db.snapshots.filter (fun r => decide (r.volumeId = vid ∧ r.name = nm))

/-- The snapshot rows surviving `INSERT OR REPLACE`. -/
def keptSnaps (db : DB) (vid : Nat) (nm : String) : List SnapRow :=
  db.snapshots.filter (fun r => !decide (r.volumeId = vid ∧ r.name = nm))

/-- The rowid assigned to the replacement row. -/
def newSnapId (db : DB) (vid : Nat) (nm : String) : Nat :=
  ((keptSnaps db vid nm).map (fun r => r.id)).foldr max 0 + 1

/-- Source: `register(snapshot)`: `INSERT OR REPLACE INTO snapshots (volume_id, name,
time, annotation)` with `volume_id = obj.volume.id`.  A `None` volume id
violates `NOT NULL`, an id with no `volumes` row violates the foreign key
(both surface as an integrity error).  Otherwise the conflicting row (if any)
is deleted — firing `ON DELETE SET NULL` on head pointers — the new row is
inserted, and the object's `id` is set to the new rowid. -/
def registerSnapshot (db : DB) (s : SnapObj) : Except SotErr (DB × SnapObj) :=
  match s.volume.id with
  | none => .error .integrity
  | some vid =>
    if vid ∈ db.volIds then
      .ok ({ db with
              snapshots := keptSnaps db vid s.name ++
                [⟨newSnapId db vid s.name, vid, s.name, s.time, s.annot⟩],
              heads := setNullHeads db.heads
                ((victimSnaps db vid s.name).map (fun r => r.id)) },
            { s with id := some (newSnapId db vid s.name) })
    else .error .integrity

/-- Source: `unregister(snapshot)`: load the parent volume, then
`DELETE FROM snapshots WHERE volume_id = ? AND (name = ? OR id = ?)`
(`ON DELETE SET NULL` fires on head pointers). -/
def unregisterSnapshot (db : DB) (s : SnapObj) : DB × SnapObj :=
  let v := loadVolume db s.volume
  let cond := fun (r : SnapRow) =>
    decide (some r.volumeId = v.id ∧ (r.name = s.name ∨ some r.id = s.id))
  ({ db with
      snapshots := db.snapshots.filter (fun r => !cond r),
      heads := setNullHeads db.heads
        ((db.snapshots.filter cond).map (fun r => r.id)) },
    { s with volume := v })

/-- Source: `unregister(volume)`: no-op when the object's `id` is unset, else
`DELETE FROM volumes WHERE id = ?`, cascading to the volume's snapshot rows
and its `volumes_head` row (and `SET NULL` for heads referencing the deleted
snapshots). -/
def unregisterVolume (db : DB) (v : VolumeObj) : DB :=
  match v.id with
  | none => db
  | some vid =>
    { volumes := db.volumes.filter (fun r => !decide (r.id = vid)),
      snapshots := db.snapshots.filter (fun r => !decide (r.volumeId = vid)),
      heads := (setNullHeads db.heads
          ((db.snapshots.filter (fun r => decide (r.volumeId = vid))).map
            (fun r => r.id))).filter
        (fun h => !decide (h.volumeId = vid)) }

/-- Source: `snapshots(volume)`: load the volume and select its rows.  (The Python
returns a name-keyed dict; `ORDER BY time DESC` only affects iteration
order, so the rows are returned here in table order.) -/
def snapshotsOf (db : DB) (v : VolumeObj) : VolumeObj × List SnapRow :=
  let v1 := loadVolume db v
  (v1, db.snapshots.filter (fun r => decide (some r.volumeId = v1.id)))

/-- Source: `head(volume)`: the join of `snapshots` with `volumes_head` on
`snapshots.id = head_snapshot_id`, filtered to `snapshots.volume_id = ?`
(`fetchone` = first matching row). -/
def headOf (db : DB) (v : VolumeObj) : VolumeObj × Option SnapRow :=
  let v1 := loadVolume db v
  let headIds := db.heads.filterMap (fun h => h.headSnapshotId)
  (v1, db.snapshots.find?
    (fun r => decide (some r.volumeId = v1.id ∧ r.id ∈ headIds)))

/-- The `UPDATE volumes_head SET head_snapshot_id = kopt WHERE volume_id = ?`
row transformation (`vopt` is the loaded volume object's id). -/
def updHeads (heads : List HeadRow) (vopt kopt : Option Nat) : List HeadRow :=
  heads.map (fun h =>
    if some h.volumeId = vopt then { h with headSnapshotId := kopt } else h)

/-- Source: `set_head(volume, snapshot)`: load both objects, then
`UPDATE volumes_head SET head_snapshot_id = ? WHERE volume_id = ?`. -/
def setHead (db : DB) (v : VolumeObj) (s : SnapObj) :
    Except SotErr (DB × VolumeObj × SnapObj) :=
  let v1 := loadVolume db v
  match loadSnapshot db s with
  | .error e => .error e
  | .ok s1 =>
    .ok ({ db with heads := updHeads db.heads v1.id s1.id }, v1, s1)

/-- Source: `update(snapshot)`: load, then
`UPDATE snapshots SET name = ?, time = ?, annotation = ? WHERE id = ?`. -/
def updateSnapshot (db : DB) (s : SnapObj) : Except SotErr (DB × SnapObj) :=
  match loadSnapshot db s with
  | .error e => .error e
  | .ok s1 =>
    .ok ({ db with snapshots := db.snapshots.map (fun r =>
            if some r.id = s1.id then
              { r with name := s1.name, time := s1.time, annot := s1.annot }
            else r) },
      s1)

/-! ## Domain methods (`Volume` / `Snapshot` in `src/sot/btrfs.py`)

Each method is a function over the combined filesystem + index state.  A
Python exception is an `Except.error` carrying the error kind and the state
at raise time (side effects performed before the raise are kept, as in
Python). -/

structure SotState where
  fs : FS
  db : DB
  deriving DecidableEq

/-- Source: `Snapshot.is_head()`: `head = self.volume.head;
head is not None and head.id == self.id`. -/
def snapshotIsHead (db : DB) (s : SnapObj) : Bool :=
  match (headOf db s.volume).2 with
  | none => false
  | some r => decide (some r.id = s.id)

/-- Source: `Snapshot.assert_not_exists()`: raise `SnapshotExists` when the
snapshot's path exists. -/
def assertNotExists (fs : FS) (s : SnapObj) : Except SotErr Unit :=
  if (fs.lookup s.path).isSome then .error .snapshotExists else .ok ()

/-- Source: `Snapshot.create()`: `self.path.parent.mkdir(exist_ok=True, parents=True)`,
then `btrfsutil.create_snapshot(volume.realpath, self.path, read_only=True)`,
then `STORAGE.register(self.volume)`, `STORAGE.register(self)`, and finally
`self.volume.head = self`. -/
def snapshotCreate (st : SotState) (s : SnapObj) :
    Except (SotErr × SotState) (SotState × SnapObj) :=
  let fs1 := mkdirP st.fs s.volume.storageDir
  match createSnapshotPrim fs1 s.volume.realpath s.path true with
  | .error e => .error (.physical e, { st with fs := fs1 })
  | .ok fs2 =>
    let rv := registerVolume st.db s.volume
    let s1 : SnapObj := { s with volume := rv.2 }
    match registerSnapshot rv.1 s1 with
    | .error e => .error (e, ⟨fs2, rv.1⟩)
    | .ok p =>
      match setHead p.1 p.2.volume p.2 with
      | .error e => .error (e, ⟨fs2, p.1⟩)
      | .ok q => .ok (⟨fs2, q.1⟩, { p.2 with volume := q.2.1 })

/-- Source: `Snapshot.delete()`: `self.readonly = False`, then
`btrfsutil.delete_subvolume(path)`, then `STORAGE.unregister(self)`. -/
def snapshotDelete (st : SotState) (s : SnapObj) :
    Except (SotErr × SotState) (SotState × SnapObj) :=
  match setReadOnlyPrim st.fs s.path false with
  | .error e => .error (.physical e, st)
  | .ok fs1 =>
    match deleteSubvolumePrim fs1 s.path with
    | .error e => .error (.physical e, { st with fs := fs1 })
    | .ok fs2 =>
      let p := unregisterSnapshot st.db s
      .ok (⟨fs2, p.1⟩, p.2)

/-- The `Snapshot.name` setter: raise `SnapshotExists` when `new_name` is
already a key of `self.volume.snapshots`; otherwise clear read-only, update
`_name`/`path`, `shutil.move`, restore read-only, and `STORAGE.update(self)`.
Errors carry the state and the object as mutated so far. -/
def snapshotSetName (st : SotState) (s : SnapObj) (newName : String) :
    Except (SotErr × SotState × SnapObj) (SotState × SnapObj) :=
  let q := snapshotsOf st.db s.volume
  let s1 : SnapObj := { s with volume := q.1 }
  if newName ∈ q.2.map (fun r => r.name) then .error (.snapshotExists, st, s1)
  else
    match setReadOnlyPrim st.fs s1.path false with
    | .error e => .error (.physical e, st, s1)
    | .ok fs1 =>
      let s2 : SnapObj := { s1 with name := newName }
      match movePrim fs1 s1.path s2.path with
      | .error e => .error (.physical e, { st with fs := fs1 }, s2)
      | .ok fs2 =>
        match setReadOnlyPrim fs2 s2.path true with
        | .error e => .error (.physical e, { st with fs := fs2 }, s2)
        | .ok fs3 =>
          match updateSnapshot st.db s2 with
          | .error e => .error (e, { st with fs := fs3 }, s2)
          | .ok p => .ok (⟨fs3, p.1⟩, p.2)

/-- Source: `Snapshot.load_to_path(workdir)`:
`btrfsutil.create_snapshot(self.path, workdir, read_only=False)`. -/
def snapshotLoadToPath (fs : FS) (s : SnapObj) (workdir : FsPath) :
    Except PhysErr FS :=
  createSnapshotPrim fs s.path workdir false

/-- Source: `Volume.switch(snapshot)`: `assert_has_snapshots` (storage directory must
exist), membership of the target name in `self.snapshots`, then either the
early branch (live path absent: `load_to_path` and `return snapshot`) or the
full branch (`assert_is_volume`, physical delete of the live subvolume,
`load_to_path`, set head).  The returned option is the Python return value
(`snapshot` in the early branch, `None` otherwise). -/
def volumeSwitch (st : SotState) (v : VolumeObj) (s : SnapObj) :
    Except (SotErr × SotState) (SotState × VolumeObj × Option SnapObj) :=
  if (st.fs.lookup v.storageDir).isSome then
    let q := snapshotsOf st.db v
    if s.name ∈ q.2.map (fun r => r.name) then
      if (st.fs.lookup v.realpath).isSome then
        if isSubvolPrim st.fs v.realpath then
          match deleteSubvolumePrim st.fs v.realpath with
          | .error e => .error (.physical e, st)
          | .ok fs1 =>
            match snapshotLoadToPath fs1 s v.realpath with
            | .error e => .error (.physical e, { st with fs := fs1 })
            | .ok fs2 =>
              match setHead st.db q.1 s with
              | .error e => .error (e, { st with fs := fs2 })
              | .ok r => .ok (⟨fs2, r.1⟩, r.2.1, none)
        else .error (.notASubvolume, st)
      else
        match snapshotLoadToPath st.fs s v.realpath with
        | .error e => .error (.physical e, st)
        | .ok fs1 => .ok ({ st with fs := fs1 }, q.1, some s)
    else .error (.snapshotNotFound, st)
  else .error (.noSnapshots, st)

/-! ## Rebuild (`SnapshotStorage.rebuild_metadata`) -/

/-- The inner loop of `rebuild_metadata`: register every snapshot found under
a volume's storage directory.  `snapshots_from_filesystem` constructs
`Snapshot(volume, name)` — annotation defaults to `None` — and sets `time`
from the directory's `st_ctime`. -/
def registerSnapsFromFs (snaps : List (String × Nat)) (v : VolumeObj)
    (db : DB) : Except SotErr DB :=
  match snaps with
  | [] => .ok db
  | p :: rest =>
    match registerSnapshot db ⟨v, p.1, p.2, none, none⟩ with
    | .error e => .error e
    | .ok q => registerSnapsFromFs rest v q.1

/-- The snapshot directory entries under a volume's storage directory, with
their change times. -/
def snapsOnDisk (fs : FS) (vn : String) : List (String × Nat) :=
  fs.nodes.filterMap (fun e =>
    match e.1 with
    | .snap dn sn => if dn = vn then some (sn, e.2.ctime) else none
    | _ => none)

/-- The outer loop of `rebuild_metadata`: each directory under the storage
root becomes a `Volume(path=unescape(dirname))`, which is registered and then
has its on-disk snapshots registered. -/
def rebuildVols (fs : FS) (volNames : List String) (db : DB) :
    Except SotErr DB :=
  match volNames with
  | [] => .ok db
  | vn :: rest =>
    let rv := registerVolume db ⟨unescapeS vn, none⟩
    match registerSnapsFromFs (snapsOnDisk fs rv.2.volName) rv.2 rv.1 with
    | .error e => .error e
    | .ok db2 => rebuildVols fs rest db2

/-- Source: `rebuild_metadata()`: drop and recreate the (now empty) tables, then
register every volume directory found under the storage root together with
its snapshots. -/
def rebuildMetadata (st : SotState) : Except SotErr DB :=
  rebuildVols st.fs
    (st.fs.nodes.filterMap (fun e =>
      match e.1 with
      | .snapDir n => some n
      | _ => none))
    ⟨[], [], []⟩

/-- Every snapshot row's annotation is `NULL`. -/
def annotAllNone (db : DB) : Bool :=
  db.snapshots.all (fun r => r.annot.isNone)

/-! ## Basic lemmas about the model -/

theorem loadVolume_path (db : DB) (v : VolumeObj) :
    (loadVolume db v).path = v.path := by
  unfold loadVolume
  split
  · rfl
  · split
    · rfl
    · rfl

theorem loadVolume_realpath (db : DB) (v : VolumeObj) :
    (loadVolume db v).realpath = v.realpath := by
  unfold VolumeObj.realpath
  rw [loadVolume_path]

theorem mem_le_foldr_max {l : List Nat} {i : Nat} (h : i ∈ l) :
    i ≤ l.foldr max 0 := by
  induction l with
  | nil => cases h
  | cons a rest ih =>
    rcases h with _ | ⟨_, h⟩
    · exact le_max_left _ _
    · exact le_trans (ih h) (le_max_right _ _)

theorem nodup_map_mem_eq {α β : Type} {f : α → β} {l : List α}
    (h : (l.map f).Nodup) {a b : α} (ha : a ∈ l) (hb : b ∈ l)
    (hf : f a = f b) : a = b := by
  induction l with
  | nil => cases ha
  | cons x rest ih =>
    rw [List.map_cons, List.nodup_cons] at h
    rcases ha with _ | ⟨_, ha⟩ <;> rcases hb with _ | ⟨_, hb⟩
    · rfl
    · exact absurd (hf ▸ List.mem_map_of_mem f hb) h.1
    · exact absurd (hf ▸ List.mem_map_of_mem f ha) h.1
    · exact ih h.2 ha hb

/-! ## C6: failed physical delete leaves the index untouched -/

/-- C6.  `Snapshot.delete()` clears the read-only flag first; if the physical
`delete_subvolume` call then fails, the whole call raises the wrapped
physical error and the index (`db`) of the resulting state is exactly the
index before the call — `unregister` is never reached. -/
theorem delete_physical_failure_keeps_index (st : SotState) (s : SnapObj)
    (fs1 : FS) (e : PhysErr)
    (h1 : setReadOnlyPrim st.fs s.path false = .ok fs1)
    (h2 : deleteSubvolumePrim fs1 s.path = .error e) :
    snapshotDelete st s = .error (.physical e, { st with fs := fs1 }) ∧
    ({ st with fs := fs1 } : SotState).db = st.db := by
  unfold snapshotDelete
  rw [h1]
  dsimp only
  rw [h2]
  exact ⟨rfl, rfl⟩

def c6St : SotState :=
  ⟨⟨[(.snap "v" "a", ⟨true, true, true, 0, 5⟩)]⟩,
    ⟨[⟨1, "v"⟩], [⟨1, 1, "a", 0, some "note"⟩], [⟨1, some 1⟩]⟩⟩

def c6Snap : SnapObj := ⟨⟨"v", some 1⟩, "a", 0, some 1, some "note"⟩

def c6Fs1 : FS := ⟨[(.snap "v" "a", ⟨true, false, true, 0, 5⟩)]⟩

/-- Witness for C6: a registered, busy snapshot — the read-only toggle
succeeds, the physical delete fails, and the snapshot row survives. -/
theorem delete_physical_failure_keeps_index_witness :
    snapshotDelete c6St c6Snap = .error (.physical .busyErr, { c6St with fs := c6Fs1 }) ∧
    ({ c6St with fs := c6Fs1 } : SotState).db = c6St.db :=
  delete_physical_failure_keeps_index c6St c6Snap c6Fs1 .busyErr rfl rfl

/-! ## C7: rename collision fails early and changes nothing -/

/-- C7.  When `new_name` already names a sibling snapshot, the `name` setter
raises `SnapshotExists` immediately: the state (filesystem and index) is
returned unchanged, and the object keeps its name and path (only the parent
volume object may have been hydrated by the `snapshots` lookup). -/
theorem rename_collision_unchanged (st : SotState) (s : SnapObj)
    (newName : String)
    (h : newName ∈ (snapshotsOf st.db s.volume).2.map (fun r => r.name)) :
    snapshotSetName st s newName =
      .error (.snapshotExists, st,
        { s with volume := (snapshotsOf st.db s.volume).1 }) ∧
    ({ s with volume := (snapshotsOf st.db s.volume).1 } : SnapObj).name = s.name ∧
    ({ s with volume := (snapshotsOf st.db s.volume).1 } : SnapObj).path = s.path := by
  refine ⟨?_, rfl, ?_⟩
  · unfold snapshotSetName
    rw [if_pos h]
  · show FsPath.snap (escapeS (loadVolume st.db s.volume).path) s.name =
      FsPath.snap (escapeS s.volume.path) s.name
    rw [loadVolume_path]

def c7St : SotState :=
  ⟨⟨[(.snap "v" "a", ⟨true, true, false, 0, 1⟩),
     (.snap "v" "b", ⟨true, true, false, 0, 2⟩)]⟩,
    ⟨[⟨1, "v"⟩], [⟨1, 1, "a", 0, none⟩, ⟨2, 1, "b", 0, none⟩], [⟨1, some 2⟩]⟩⟩

def c7Snap : SnapObj := ⟨⟨"v", none⟩, "a", 0, none, none⟩

/-- Witness for C7: renaming `"a"` to its sibling `"b"` fails with
`SnapshotExists`, leaving state, name and path unchanged. -/
theorem rename_collision_unchanged_witness :
    snapshotSetName c7St c7Snap "b" =
      .error (.snapshotExists, c7St,
        { c7Snap with volume := (snapshotsOf c7St.db c7Snap.volume).1 }) ∧
    ({ c7Snap with volume := (snapshotsOf c7St.db c7Snap.volume).1 } : SnapObj).name =
      c7Snap.name ∧
    ({ c7Snap with volume := (snapshotsOf c7St.db c7Snap.volume).1 } : SnapObj).path =
      c7Snap.path :=
  rename_collision_unchanged c7St c7Snap "b" (by decide)

/-! ## C8: the `switch` guard checks the storage directory, not row count -/

def c8St : SotState :=
  ⟨⟨[(.snapDir "v", ⟨false, false, false, 0, 0⟩)]⟩,
    ⟨[⟨1, "v"⟩], [], [⟨1, none⟩]⟩⟩

def c8Vol : VolumeObj := ⟨"v", none⟩

def c8Snap : SnapObj := ⟨⟨"v", none⟩, "a", 0, none, none⟩

/-- C8 counterexample: a volume with zero registered snapshots whose storage
directory nevertheless exists — `switch` passes `assert_has_snapshots` and
raises `SnapshotNotFound`, not `NoSnapshotsError`. -/
theorem switch_zero_snapshots_counterexample :
    c8St.db.snapshots = [] ∧
    volumeSwitch c8St c8Vol c8Snap = .error (.snapshotNotFound, c8St) :=
  ⟨rfl, rfl⟩

/-- C8 (amended).  `Volume.switch` raises `NoSnapshotsError` exactly when the
volume's snapshot storage directory does not exist: `assert_has_snapshots`
checks directory existence, not the number of registered snapshots. -/
theorem switch_no_storage_dir (st : SotState) (v : VolumeObj) (s : SnapObj)
    (h : (st.fs.lookup v.storageDir).isSome = false) :
    volumeSwitch st v s = .error (.noSnapshots, st) := by
  unfold volumeSwitch
  rw [if_neg]
  rw [h]
  exact Bool.false_ne_true

def c8bSt : SotState := ⟨⟨[]⟩, ⟨[], [], []⟩⟩

/-- Witness for the amended C8: with no storage directory, `switch` raises
`NoSnapshotsError`. -/
theorem switch_no_storage_dir_witness :
    volumeSwitch c8bSt c8Vol c8Snap = .error (.noSnapshots, c8bSt) :=
  switch_no_storage_dir c8bSt c8Vol c8Snap rfl

/-! ## C9: unregistering a volume cascades -/

/-- C9.  `unregister(volume)` (for a hydrated object whose id names a volume
row) deletes the volume's row, every snapshot row of that volume, and its
`volumes_head` row; the surviving snapshot table is exactly the rows of the
other volumes, unchanged. -/
theorem unregister_volume_cascade (db : DB) (v : VolumeObj) (vid : Nat)
    (hid : v.id = some vid) (hrow : vid ∈ db.volIds) :
    (unregisterVolume db v).volumes.all (fun r => !decide (r.id = vid)) = true ∧
    (unregisterVolume db v).snapshots =
      db.snapshots.filter (fun r => !decide (r.volumeId = vid)) ∧
    (unregisterVolume db v).heads.all (fun h => !decide (h.volumeId = vid)) = true := by
  unfold unregisterVolume
  rw [hid]
  refine ⟨?_, rfl, ?_⟩
  · rw [List.all_eq_true]
    intro r hr
    exact (List.mem_filter.mp hr).2
  · rw [List.all_eq_true]
    intro hd hdmem
    exact (List.mem_filter.mp hdmem).2

def c9Db : DB :=
  ⟨[⟨1, "v"⟩, ⟨2, "w"⟩],
    [⟨1, 1, "a", 0, none⟩, ⟨2, 2, "b", 0, none⟩, ⟨3, 1, "c", 0, none⟩],
    [⟨1, some 1⟩, ⟨2, some 2⟩]⟩

def c9Vol : VolumeObj := ⟨"v", some 1⟩

/-- Witness for C9 at a two-volume index: unregistering volume 1 removes its
row, both of its snapshots and its head row, and leaves volume 2's snapshot
row exactly as it was. -/
theorem unregister_volume_cascade_witness :
    (unregisterVolume c9Db c9Vol).volumes.all (fun r => !decide (r.id = 1)) = true ∧
    (unregisterVolume c9Db c9Vol).snapshots =
      c9Db.snapshots.filter (fun r => !decide (r.volumeId = 1)) ∧
    (unregisterVolume c9Db c9Vol).heads.all (fun h => !decide (h.volumeId = 1)) = true :=
  unregister_volume_cascade c9Db c9Vol 1 rfl (by decide)

/-! ## C10: rebuild never recovers annotations -/

theorem registerVolume_snapshots_eq (db : DB) (v : VolumeObj) :
    (registerVolume db v).1.snapshots = db.snapshots := by
  unfold registerVolume
  split
  · rfl
  · rfl

theorem registerSnapshot_annot {db : DB} {s : SnapObj} {db' : DB} {s' : SnapObj}
    (h : registerSnapshot db s = .ok (db', s'))
    (hdb : annotAllNone db = true) (hs : s.annot = none) :
    annotAllNone db' = true := by
  unfold registerSnapshot at h
  rcases hv : s.volume.id with _ | vid <;> rw [hv] at h <;> dsimp only at h
  · exact absurd h (by simp)
  · by_cases hmem : vid ∈ db.volIds
    swap
    · rw [if_neg hmem] at h
      exact absurd h (by simp)
    rw [if_pos hmem] at h
    injection h with h
    have hdb' : db' = { db with
        snapshots := keptSnaps db vid s.name ++
          [⟨newSnapId db vid s.name, vid, s.name, s.time, s.annot⟩],
        heads := setNullHeads db.heads
          ((victimSnaps db vid s.name).map (fun r => r.id)) } :=
      (congrArg Prod.fst h).symm
    subst hdb'
    unfold annotAllNone at hdb ⊢
    rw [List.all_eq_true] at hdb ⊢
    intro r hr
    rcases List.mem_append.mp hr with hr | hr
    · exact hdb r (List.mem_filter.mp hr).1
    · rcases hr with _ | ⟨_, hr⟩
      · simp [hs]
      · cases hr

theorem registerSnapsFromFs_annot {snaps : List (String × Nat)} {v : VolumeObj}
    {db db' : DB} (h : registerSnapsFromFs snaps v db = .ok db')
    (hdb : annotAllNone db = true) : annotAllNone db' = true := by
  induction snaps generalizing db with
  | nil =>
    unfold registerSnapsFromFs at h
    injection h with h
    exact h ▸ hdb
  | cons p rest ih =>
    unfold registerSnapsFromFs at h
    rcases hr : registerSnapshot db ⟨v, p.1, p.2, none, none⟩ with e | q <;>
      rw [hr] at h
    · exact absurd h (by simp)
    · exact ih h (registerSnapshot_annot hr hdb rfl)

theorem rebuildVols_annot {fs : FS} {volNames : List String} {db db' : DB}
    (h : rebuildVols fs volNames db = .ok db')
    (hdb : annotAllNone db = true) : annotAllNone db' = true := by
  induction volNames generalizing db with
  | nil =>
    unfold rebuildVols at h
    injection h with h
    exact h ▸ hdb
  | cons vn rest ih =>
    unfold rebuildVols at h
    dsimp only at h
    rcases hr : registerSnapsFromFs
        (snapsOnDisk fs (registerVolume db ⟨unescapeS vn, none⟩).2.volName)
        (registerVolume db ⟨unescapeS vn, none⟩).2
        (registerVolume db ⟨unescapeS vn, none⟩).1 with e | db2 <;> rw [hr] at h
    · exact absurd h (by simp)
    · refine ih h (registerSnapsFromFs_annot hr ?_)
      unfold annotAllNone
      rw [registerVolume_snapshots_eq]
      exact hdb

/-- C10.  After a successful `rebuild_metadata()`, every snapshot row in the
rebuilt index has a `NULL` annotation: `snapshots_from_filesystem` constructs
each `Snapshot` with the default `annotation=None`, so annotations are never
recovered from the filesystem. -/
theorem rebuild_annotations_lost (st : SotState) (db : DB)
    (h : rebuildMetadata st = .ok db) : annotAllNone db = true :=
  rebuildVols_annot h rfl

def c10St : SotState :=
  ⟨⟨[(.snapDir "a", ⟨false, false, false, 0, 0⟩),
     (.snap "a" "x", ⟨true, true, false, 5, 9⟩)]⟩,
    ⟨[⟨1, "a"⟩], [⟨1, 1, "x", 7, some "kept?"⟩], [⟨1, some 1⟩]⟩⟩

def c10Db : DB := ⟨[⟨1, "a"⟩], [⟨1, 1, "x", 5, none⟩], [⟨1, none⟩]⟩

/-- Witness for C10: rebuilding over one volume with one snapshot (whose old
row carried an annotation) yields an index whose only snapshot row has a
`NULL` annotation. -/
theorem rebuild_annotations_lost_witness : annotAllNone c10Db = true :=
  rebuild_annotations_lost c10St c10Db rfl

/-! ## C3: `register(snapshot)` does not register the parent volume -/

/-- C3 counterexample: registering a snapshot whose parent volume has no row
(the volume object's `id` is unset) raises an integrity error instead of
auto-creating the volume row and succeeding. -/
theorem register_snapshot_orphan_counterexample :
    registerSnapshot ⟨[], [], []⟩ ⟨⟨"v", none⟩, "a", 0, none, none⟩ =
      .error .integrity :=
  rfl

/-- C3 (amended).  `register(snapshot)` performs no volume registration: it
inserts-or-replaces the snapshot row using the parent volume object's
already-assigned id, leaving the `volumes` table untouched, and fails with an
integrity error when that id is unset (`NOT NULL`) or names no volume row
(foreign key).  The register-volume-then-snapshot cascade lives in
`Snapshot.create()`, not in `SnapshotStorage.register`. -/
theorem register_snapshot_amended (db : DB) (s : SnapObj) :
    (s.volume.id = none → registerSnapshot db s = .error .integrity) ∧
    (∀ vid, s.volume.id = some vid → vid ∉ db.volIds →
      registerSnapshot db s = .error .integrity) ∧
    (∀ vid, s.volume.id = some vid → vid ∈ db.volIds →
      registerSnapshot db s = .ok
        ({ db with
            snapshots := keptSnaps db vid s.name ++
              [⟨newSnapId db vid s.name, vid, s.name, s.time, s.annot⟩],
            heads := setNullHeads db.heads
              ((victimSnaps db vid s.name).map (fun r => r.id)) },
          { s with id := some (newSnapId db vid s.name) })) := by
  refine ⟨fun h => ?_, fun vid h hmem => ?_, fun vid h hmem => ?_⟩
  · unfold registerSnapshot
    rw [h]
  · unfold registerSnapshot
    rw [h]
    dsimp only
    rw [if_neg hmem]
  · unfold registerSnapshot
    rw [h]
    dsimp only
    rw [if_pos hmem]

/-- Witness for the amended C3: with an empty index and a stale volume id,
registering the snapshot fails with an integrity error. -/
theorem register_snapshot_amended_witness :
    registerSnapshot ⟨[], [], []⟩ ⟨⟨"v", some 7⟩, "a", 0, none, none⟩ =
      .error .integrity :=
  (register_snapshot_amended ⟨[], [], []⟩ ⟨⟨"v", some 7⟩, "a", 0, none, none⟩).2.1
    7 rfl (by decide)

/-! ## C4: `create()` has no destination pre-check -/

theorem find?_fst_filter_ne (l : List (FsPath × FsNode)) (p q : FsPath)
    (h : q ≠ p) :
    (l.filter (fun e => !decide (e.1 = p))).find? (fun e => decide (e.1 = q)) =
      l.find? (fun e => decide (e.1 = q)) := by
  induction l with
  | nil => rfl
  | cons e rest ih =>
    by_cases hep : e.1 = p
    · have hq : ¬(fun x : FsPath × FsNode => decide (x.1 = q)) e = true := by
        simp only [decide_eq_true_eq]
        exact fun hq => h (hq ▸ hep)
      rw [List.filter_cons_of_neg (by simp [hep]), ih,
        @List.find?_cons_of_neg _ (fun x => decide (x.1 = q)) e rest hq]
    · by_cases heq : e.1 = q
      · rw [List.filter_cons_of_pos (by simp [hep]),
          @List.find?_cons_of_pos _ (fun x => decide (x.1 = q)) e
            (rest.filter (fun x => !decide (x.1 = p))) (by simp [heq]),
          @List.find?_cons_of_pos _ (fun x => decide (x.1 = q)) e rest
            (by simp [heq])]
      · rw [List.filter_cons_of_pos (by simp [hep]),
          @List.find?_cons_of_neg _ (fun x => decide (x.1 = q)) e
            (rest.filter (fun x => !decide (x.1 = p))) (by simp [heq]),
          @List.find?_cons_of_neg _ (fun x => decide (x.1 = q)) e rest
            (by simp [heq]), ih]

theorem FS.lookup_insert_ne (fs : FS) (p q : FsPath) (n : FsNode) (h : q ≠ p) :
    (fs.insert p n).lookup q = fs.lookup q := by
  unfold FS.insert FS.erase FS.lookup
  dsimp only
  have hpq : decide ((p, n).1 = q) = false := decide_eq_false fun hq => h hq.symm
  simp only [List.find?_cons, hpq]
  rw [find?_fst_filter_ne fs.nodes p q h]

theorem mkdirP_lookup_ne (fs : FS) (p q : FsPath) (h : q ≠ p) :
    (mkdirP fs p).lookup q = fs.lookup q := by
  unfold mkdirP
  split
  · rfl
  · exact FS.lookup_insert_ne fs p q _ h

theorem createSnapshotPrim_dest_exists (fs : FS) (src dest : FsPath) (ro : Bool)
    (h : (fs.lookup dest).isSome = true) :
    ∃ e, createSnapshotPrim fs src dest ro = .error e := by
  unfold createSnapshotPrim
  rcases hs : fs.lookup src with _ | n
  · exact ⟨.srcMissing, rfl⟩
  · dsimp only
    by_cases hn : n.isSubvol = false
    · rw [if_pos hn]
      exact ⟨.srcNotSubvol, rfl⟩
    · rw [if_neg hn, if_pos h]
      exact ⟨.destExists, rfl⟩

def c4St : SotState :=
  ⟨⟨[(.real "v", ⟨true, false, false, 0, 1⟩),
     (.snapDir "v", ⟨false, false, false, 0, 0⟩),
     (.snap "v" "a", ⟨true, true, false, 0, 2⟩)]⟩,
    ⟨[], [], []⟩⟩

def c4Snap : SnapObj := ⟨⟨"v", none⟩, "a", 3, none, none⟩

/-- C4 counterexample: the destination path of the snapshot already exists,
yet `Snapshot.create()` (in `btrfs.py`) raises no `SnapshotExists` — it runs
straight into the physical create-snapshot primitive, which fails with a
wrapped physical error. -/
theorem create_no_precheck_counterexample :
    (c4St.fs.lookup c4Snap.path).isSome = true ∧
    snapshotCreate c4St c4Snap = .error (.physical .destExists, c4St) :=
  ⟨rfl, rfl⟩

/-- C4 (amended).  `btrfs.py`'s `Snapshot.create()` performs no destination
pre-check: with the destination already present, the mkdir call runs and then
the physical create-snapshot primitive fails with a physical error (never
`SnapshotExists`), leaving the index unmutated.  The `SnapshotExists`
pre-check exists as `Snapshot.assert_not_exists`, which the CLI layer invokes
before `create()` (the legacy `snapshot.py` kept it inside `create()`). -/
theorem create_no_precheck_amended (st : SotState) (s : SnapObj)
    (h : (st.fs.lookup s.path).isSome = true) :
    assertNotExists st.fs s = .error .snapshotExists ∧
    ∃ e st2, snapshotCreate st s = .error (.physical e, st2) ∧ st2.db = st.db := by
  constructor
  · unfold assertNotExists
    rw [if_pos h]
  · have hne : s.path ≠ s.volume.storageDir := fun hq => FsPath.noConfusion hq
    have hdest : ((mkdirP st.fs s.volume.storageDir).lookup s.path).isSome = true := by
      rw [mkdirP_lookup_ne st.fs _ _ hne]
      exact h
    obtain ⟨e, he⟩ := createSnapshotPrim_dest_exists
      (mkdirP st.fs s.volume.storageDir) s.volume.realpath s.path true hdest
    refine ⟨e, { st with fs := mkdirP st.fs s.volume.storageDir }, ?_, rfl⟩
    unfold snapshotCreate
    dsimp only
    rw [he]

/-- Witness for the amended C4: at a state whose snapshot path exists,
`assert_not_exists` (the check the CLI runs before `create()`) raises
`SnapshotExists`. -/
theorem create_no_precheck_amended_witness :
    assertNotExists c4St.fs c4Snap = .error .snapshotExists :=
  (create_no_precheck_amended c4St c4Snap rfl).1

/-! ## C2: `switch` with an absent live path does not set the head -/

def c2St : SotState :=
  ⟨⟨[(.snapDir "v", ⟨false, false, false, 0, 0⟩),
     (.snap "v" "a", ⟨true, true, false, 0, 3⟩)]⟩,
    ⟨[⟨1, "v"⟩], [⟨1, 1, "a", 0, none⟩], [⟨1, none⟩]⟩⟩

def c2Vol : VolumeObj := ⟨"v", none⟩

def c2Snap : SnapObj := ⟨⟨"v", some 1⟩, "a", 0, some 1, none⟩

def c2After : SotState :=
  ⟨⟨[(.real "v", ⟨true, false, false, 0, 3⟩),
     (.snapDir "v", ⟨false, false, false, 0, 0⟩),
     (.snap "v" "a", ⟨true, true, false, 0, 3⟩)]⟩, c2St.db⟩

/-- C2 counterexample: the live path is absent and the registered target
`"a"` is switched to — the live path is materialized (a mutable copy of the
snapshot's content), but `switch` returns from the early branch without
setting the head: afterwards `is_head` is false and the claimed
`head(volume) = target` fails. -/
theorem switch_absent_live_counterexample :
    volumeSwitch c2St c2Vol c2Snap = .ok (c2After, ⟨"v", some 1⟩, some c2Snap) ∧
    snapshotIsHead c2After.db c2Snap = false ∧
    c2St.db.snapshots = [⟨1, 1, "a", 0, none⟩] :=
  ⟨rfl, rfl, rfl⟩

/-- C2 (amended).  When the live path does not exist, `Volume.switch`
materializes the target as a mutable (read-write) copy of its content at the
live path and returns the target, but it does **not** set the volume's head:
the early branch returns before the head assignment, so the index — and with
it `head(volume)` — is unchanged. -/
theorem switch_absent_live_amended (st : SotState) (v : VolumeObj)
    (s : SnapObj) (m : FsNode)
    (hdir : (st.fs.lookup v.storageDir).isSome = true)
    (hname : s.name ∈ (snapshotsOf st.db v).2.map (fun r => r.name))
    (hlive : st.fs.lookup v.realpath = none)
    (hsrc : st.fs.lookup s.path = some m)
    (hsv : m.isSubvol = true) :
    volumeSwitch st v s =
      .ok ({ st with fs :=
          st.fs.insert v.realpath ⟨true, false, false, m.ctime, m.content⟩ },
        (snapshotsOf st.db v).1, some s) ∧
    ({ st with fs :=
        st.fs.insert v.realpath ⟨true, false, false, m.ctime, m.content⟩ } :
      SotState).db = st.db := by
  refine ⟨?_, rfl⟩
  have hload : snapshotLoadToPath st.fs s v.realpath =
      .ok (st.fs.insert v.realpath ⟨true, false, false, m.ctime, m.content⟩) := by
    unfold snapshotLoadToPath createSnapshotPrim
    rw [hsrc]
    dsimp only
    rw [if_neg (by rw [hsv]; simp), if_neg (by rw [hlive]; simp)]
  unfold volumeSwitch
  rw [if_pos hdir]
  dsimp only
  rw [if_pos hname, if_neg (by rw [hlive]; simp), hload]

/-- Witness for the amended C2 at the concrete state of the counterexample. -/
theorem switch_absent_live_amended_witness :
    volumeSwitch c2St c2Vol c2Snap =
      .ok ({ c2St with fs :=
          c2St.fs.insert c2Vol.realpath ⟨true, false, false, 0, 3⟩ },
        (snapshotsOf c2St.db c2Vol).1, some c2Snap) ∧
    ({ c2St with fs :=
        c2St.fs.insert c2Vol.realpath ⟨true, false, false, 0, 3⟩ } :
      SotState).db = c2St.db :=
  switch_absent_live_amended c2St c2Vol c2Snap ⟨true, true, false, 0, 3⟩
    rfl (by decide) rfl rfl rfl

/-! ## C5: `create` sets the head; a second `create` moves it

Reachable-index invariants: snapshot rowids are distinct, every non-null head
pointer references a snapshot row of its own volume, and every volume row has
a `volumes_head` row (`register(volume)` creates the two together). -/

def snapIdsNodup (db : DB) : Bool :=
  decide ((db.snapshots.map (fun r => r.id)).Nodup)

def headPointsOK (snaps : List SnapRow) (h : HeadRow) : Bool :=
  match h.headSnapshotId with
  | none => true
  | some j => snaps.any (fun r =>
      decide (r.id = j) && decide (r.volumeId = h.volumeId))

def headsOK (db : DB) : Bool :=
  db.heads.all (headPointsOK db.snapshots)

theorem headPointsOK_of_none {snaps : List SnapRow} {h : HeadRow}
    (hj : h.headSnapshotId = none) : headPointsOK snaps h = true := by
  unfold headPointsOK
  rw [hj]

theorem headPointsOK_some {snaps : List SnapRow} {h : HeadRow} {j : Nat}
    (hj : h.headSnapshotId = some j) :
    headPointsOK snaps h = snaps.any (fun r =>
      decide (r.id = j) && decide (r.volumeId = h.volumeId)) := by
  unfold headPointsOK
  rw [hj]

def headRowsExist (db : DB) : Bool :=
  db.volumes.all (fun vr => db.heads.any (fun h => decide (h.volumeId = vr.id)))

def dbInv (db : DB) : Bool :=
  snapIdsNodup db && headsOK db && headRowsExist db

/-- The head rows for the snapshot's volume all point at this snapshot. -/
def soleHead (db : DB) (s : SnapObj) : Bool :=
  db.heads.all (fun h =>
    decide (some h.volumeId = s.volume.id → h.headSnapshotId = s.id))

theorem loadVolume_of_isSome {db : DB} {v : VolumeObj}
    (h : v.id.isSome = true) : loadVolume db v = v := by
  unfold loadVolume
  rw [if_pos h]

theorem loadSnapshot_of_isSome {db : DB} {s : SnapObj}
    (h : s.id.isSome = true) : loadSnapshot db s = .ok s := by
  unfold loadSnapshot
  rw [if_pos h]

theorem setHead_loaded {db : DB} {v : VolumeObj} {s : SnapObj}
    (hv : v.id.isSome = true) (hs : s.id.isSome = true) :
    setHead db v s = .ok
      ({ db with heads := updHeads db.heads v.id s.id }, v, s) := by
  unfold setHead
  rw [loadVolume_of_isSome hv, loadSnapshot_of_isSome hs]

theorem registerSnapshot_ok {db : DB} {s : SnapObj} {db' : DB} {s' : SnapObj}
    (h : registerSnapshot db s = .ok (db', s')) :
    ∃ vid, s.volume.id = some vid ∧ vid ∈ db.volIds ∧
      db' = { db with
          snapshots := keptSnaps db vid s.name ++
            [⟨newSnapId db vid s.name, vid, s.name, s.time, s.annot⟩],
          heads := setNullHeads db.heads
            ((victimSnaps db vid s.name).map (fun r => r.id)) } ∧
      s' = { s with id := some (newSnapId db vid s.name) } := by
  unfold registerSnapshot at h
  rcases hv : s.volume.id with _ | vid <;> rw [hv] at h <;> dsimp only at h
  · exact absurd h (by simp)
  · by_cases hmem : vid ∈ db.volIds
    swap
    · rw [if_neg hmem] at h
      exact absurd h (by simp)
    rw [if_pos hmem] at h
    injection h with h
    exact ⟨vid, rfl, hmem, (congrArg Prod.fst h).symm, (congrArg Prod.snd h).symm⟩

theorem registerVolume_of_found {db : DB} {v : VolumeObj}
    (h : (db.findVolByPath v.path).isSome = true) :
    registerVolume db v = (db, loadVolume db v) := by
  unfold registerVolume
  rw [if_pos h]

theorem registerVolume_of_missing {db : DB} {v : VolumeObj}
    (h : ¬(db.findVolByPath v.path).isSome = true) :
    registerVolume db v =
      ({ volumes := db.volumes ++ [⟨freshVolId db, v.path⟩],
         snapshots := db.snapshots,
         heads :=
           if (db.heads.find? (fun hh => decide (hh.volumeId = freshVolId db))).isSome then
             db.heads
           else db.heads ++ [⟨freshVolId db, none⟩] },
       { v with id := some (freshVolId db) }) := by
  unfold registerVolume
  rw [if_neg h]

theorem setNullHeads_volumeId_surj {hs : List HeadRow} {dead : List Nat}
    {h : HeadRow} (hmem : h ∈ hs) :
    ∃ h1 ∈ setNullHeads hs dead, h1.volumeId = h.volumeId := by
  refine ⟨_, List.mem_map_of_mem _ hmem, ?_⟩
  rcases hj : h.headSnapshotId with _ | j
  · rfl
  · dsimp only
    split
    · rfl
    · rfl

theorem setNullHeads_mem_inv {hs : List HeadRow} {dead : List Nat}
    {h1 : HeadRow} (hmem : h1 ∈ setNullHeads hs dead) :
    ∃ h ∈ hs, h.volumeId = h1.volumeId ∧
      (h1.headSnapshotId = none ∨
        (h1.headSnapshotId = h.headSnapshotId ∧
          ∀ j, h.headSnapshotId = some j → j ∉ dead)) := by
  rcases List.mem_map.mp hmem with ⟨h, hh, heq⟩
  refine ⟨h, hh, ?_, ?_⟩
  · rw [← heq]
    rcases hj : h.headSnapshotId with _ | j
    · rfl
    · dsimp only
      split
      · rfl
      · rfl
  · rcases hj : h.headSnapshotId with _ | j
    · right
      rw [← heq]
      simp [hj]
    · by_cases hd : j ∈ dead
      · left
        rw [← heq]
        simp [hj, hd]
      · right
        constructor
        · rw [← heq]
          simp [hj, hd]
        · intro j2 hj2
          injection hj2 with hj2
          exact hj2 ▸ hd

theorem setNullHeads_none_of_dead {hs : List HeadRow} {dead : List Nat}
    {h : HeadRow} {j : Nat} (hmem : h ∈ hs) (hj : h.headSnapshotId = some j)
    (hd : j ∈ dead) :
    (⟨h.volumeId, none⟩ : HeadRow) ∈ setNullHeads hs dead := by
  unfold setNullHeads
  rw [List.mem_map]
  refine ⟨h, hmem, ?_⟩
  dsimp only
  rw [hj]
  dsimp only
  rw [if_pos hd]

theorem snapIdsNodup_registerVolume (db : DB) (v : VolumeObj) :
    snapIdsNodup (registerVolume db v).1 = snapIdsNodup db := by
  unfold snapIdsNodup
  rw [registerVolume_snapshots_eq]

theorem headsOK_registerVolume {db : DB} (v : VolumeObj)
    (h : headsOK db = true) : headsOK (registerVolume db v).1 = true := by
  unfold registerVolume
  split
  · exact h
  · unfold headsOK at h ⊢
    dsimp only
    split
    · exact h
    · rw [List.all_append, Bool.and_eq_true]
      refine ⟨h, ?_⟩
      rw [List.all_eq_true]
      intro h0 hmem
      rcases hmem with _ | ⟨_, hmem⟩
      · exact headPointsOK_of_none rfl
      · cases hmem

theorem headRowsExist_registerVolume {db : DB} (v : VolumeObj)
    (h : headRowsExist db = true) :
    headRowsExist (registerVolume db v).1 = true := by
  unfold registerVolume
  split
  · exact h
  · unfold headRowsExist at h ⊢
    dsimp only
    rw [List.all_eq_true] at h ⊢
    intro vr hvr
    rcases List.mem_append.mp hvr with hvr | hvr
    · have := h vr hvr
      split
      · exact this
      · rw [List.any_append, Bool.or_eq_true]
        exact Or.inl this
    · rcases hvr with _ | ⟨_, hvr⟩
      swap
      · cases hvr
      split
      · rename_i hfound
        rw [List.find?_isSome] at hfound
        rcases hfound with ⟨hh, hhmem, hhp⟩
        rw [List.any_eq_true]
        exact ⟨hh, hhmem, hhp⟩
      · rw [List.any_append, Bool.or_eq_true]
        right
        simp

/-- The snapshot table after `register(snapshot)` replaced `(vid, nm)`. -/
def afterSnaps (db1 : DB) (vid : Nat) (nm : String) (tm : Nat)
    (an : Option String) : List SnapRow :=
  keptSnaps db1 vid nm ++ [⟨newSnapId db1 vid nm, vid, nm, tm, an⟩]

/-- The head table after `register(snapshot)`'s `SET NULL` and the subsequent
`set_head` update for volume `vid`. -/
def afterHeads (db1 : DB) (vid : Nat) (nm : String) : List HeadRow :=
  updHeads (setNullHeads db1.heads ((victimSnaps db1 vid nm).map (fun r => r.id)))
    (some vid) (some (newSnapId db1 vid nm))

theorem kept_id_lt {db1 : DB} {vid : Nat} {nm : String} {r : SnapRow}
    (hr : r ∈ keptSnaps db1 vid nm) : r.id < newSnapId db1 vid nm := by
  have hmem : r.id ∈ (keptSnaps db1 vid nm).map (fun r => r.id) :=
    List.mem_map_of_mem _ hr
  have hle := mem_le_foldr_max hmem
  unfold newSnapId
  omega

theorem afterHeads_volumeId_surj {db1 : DB} {vid : Nat} {nm : String}
    {h0 : HeadRow} (hmem : h0 ∈ db1.heads) :
    ∃ h3 ∈ afterHeads db1 vid nm, h3.volumeId = h0.volumeId := by
  obtain ⟨h1, h1mem, h1vol⟩ :=
    @setNullHeads_volumeId_surj db1.heads
      ((victimSnaps db1 vid nm).map (fun r => r.id)) h0 hmem
  unfold afterHeads updHeads
  refine ⟨_, List.mem_map_of_mem _ h1mem, ?_⟩
  dsimp only
  split
  · rw [h1vol]
  · rw [h1vol]

theorem afterHeads_mem_inv {db1 : DB} {vid : Nat} {nm : String} {h3 : HeadRow}
    (hmem : h3 ∈ afterHeads db1 vid nm) :
    (h3.volumeId = vid ∧ h3.headSnapshotId = some (newSnapId db1 vid nm)) ∨
    (h3.volumeId ≠ vid ∧ h3 ∈ setNullHeads db1.heads
      ((victimSnaps db1 vid nm).map (fun r => r.id))) := by
  unfold afterHeads updHeads at hmem
  obtain ⟨h1, h1mem, heq⟩ := List.mem_map.mp hmem
  by_cases hc : some h1.volumeId = some vid
  · left
    rw [if_pos hc] at heq
    rw [← heq]
    injection hc with hc
    exact ⟨hc, rfl⟩
  · right
    rw [if_neg hc] at heq
    rw [← heq]
    have : h1.volumeId ≠ vid := fun hv => hc (by rw [hv])
    exact ⟨this, h1mem⟩

theorem newSnapId_mem_afterHeads {db1 : DB} {vid : Nat} {nm : String}
    (hhre : headRowsExist db1 = true) (hvmem : vid ∈ db1.volIds) :
    newSnapId db1 vid nm ∈
      (afterHeads db1 vid nm).filterMap (fun h => h.headSnapshotId) := by
  obtain ⟨vr, hvr, hvrid⟩ := List.mem_map.mp hvmem
  unfold headRowsExist at hhre
  rw [List.all_eq_true] at hhre
  have hany := hhre vr hvr
  rw [List.any_eq_true] at hany
  obtain ⟨h0, h0mem, h0p⟩ := hany
  rw [decide_eq_true_eq] at h0p
  obtain ⟨h1, h1mem, h1vol⟩ :=
    @setNullHeads_volumeId_surj db1.heads
      ((victimSnaps db1 vid nm).map (fun r => r.id)) h0 h0mem
  have hcond : some h1.volumeId = some vid := by
    rw [h1vol, h0p, hvrid]
  rw [List.mem_filterMap]
  refine ⟨{ h1 with headSnapshotId := some (newSnapId db1 vid nm) }, ?_, rfl⟩
  unfold afterHeads updHeads
  have heq : (fun h : HeadRow => if some h.volumeId = some vid then
      { h with headSnapshotId := some (newSnapId db1 vid nm) } else h) h1 =
      { h1 with headSnapshotId := some (newSnapId db1 vid nm) } := by
    dsimp only
    rw [if_pos hcond]
  exact heq ▸ List.mem_map_of_mem _ h1mem

theorem afterHeads_all_point (db1 : DB) (vid : Nat) (nm : String) :
    (afterHeads db1 vid nm).all (fun h =>
      decide (some h.volumeId = some vid →
        h.headSnapshotId = some (newSnapId db1 vid nm))) = true := by
  rw [List.all_eq_true]
  intro h3 hmem
  rw [decide_eq_true_eq]
  intro hvol
  rcases afterHeads_mem_inv hmem with ⟨_, hh⟩ | ⟨hne, _⟩
  · exact hh
  · injection hvol with hvol
    exact absurd hvol hne

theorem kept_not_head {db1 : DB} {vid : Nat} {nm : String}
    (h1 : snapIdsNodup db1 = true) (h2 : headsOK db1 = true) {r : SnapRow}
    (hr : r ∈ keptSnaps db1 vid nm) (hvol : r.volumeId = vid) :
    r.id ∉ (afterHeads db1 vid nm).filterMap (fun h => h.headSnapshotId) := by
  intro hmem
  rw [List.mem_filterMap] at hmem
  obtain ⟨h3, h3mem, h3id⟩ := hmem
  rcases afterHeads_mem_inv h3mem with ⟨_, hh⟩ | ⟨hne, hsn⟩
  · rw [hh] at h3id
    injection h3id with h3id
    have := kept_id_lt hr
    omega
  · obtain ⟨h0, h0mem, h0vol, hcase⟩ := setNullHeads_mem_inv hsn
    rcases hcase with hnone | ⟨hsame, _⟩
    · rw [hnone] at h3id
      exact Option.noConfusion h3id
    · have h0id : h0.headSnapshotId = some r.id := by
        rw [← hsame, h3id]
      unfold headsOK at h2
      rw [List.all_eq_true] at h2
      have hok := h2 h0 h0mem
      rw [headPointsOK_some h0id] at hok
      rw [List.any_eq_true] at hok
      obtain ⟨r2, r2mem, r2p⟩ := hok
      rw [Bool.and_eq_true, decide_eq_true_eq, decide_eq_true_eq] at r2p
      obtain ⟨r2id, r2vol⟩ := r2p
      have rmem : r ∈ db1.snapshots := (List.mem_filter.mp hr).1
      unfold snapIdsNodup at h1
      rw [decide_eq_true_eq] at h1
      have hre : r = r2 := nodup_map_mem_eq h1 rmem r2mem (by rw [r2id])
      exact hne (by rw [← h0vol, ← r2vol, ← hre, hvol])

theorem find?_afterSnaps (db1 : DB) (vid : Nat) (nm : String) (tm : Nat)
    (an : Option String) (h1 : snapIdsNodup db1 = true)
    (h2 : headsOK db1 = true) (h3 : headRowsExist db1 = true)
    (hvmem : vid ∈ db1.volIds) :
    (afterSnaps db1 vid nm tm an).find? (fun r =>
      decide (some r.volumeId = some vid ∧
        r.id ∈ (afterHeads db1 vid nm).filterMap (fun h => h.headSnapshotId))) =
      some ⟨newSnapId db1 vid nm, vid, nm, tm, an⟩ := by
  unfold afterSnaps
  rw [List.find?_append]
  have hkept : (keptSnaps db1 vid nm).find? (fun r =>
      decide (some r.volumeId = some vid ∧
        r.id ∈ (afterHeads db1 vid nm).filterMap (fun h => h.headSnapshotId))) =
      none := by
    rw [List.find?_eq_none]
    intro r hr hp
    rw [decide_eq_true_eq] at hp
    obtain ⟨hv, hidmem⟩ := hp
    injection hv with hv
    exact kept_not_head h1 h2 hr hv hidmem
  rw [hkept]
  have hpred : (fun r : SnapRow =>
      decide (some r.volumeId = some vid ∧
        r.id ∈ (afterHeads db1 vid nm).filterMap (fun h => h.headSnapshotId)))
      ⟨newSnapId db1 vid nm, vid, nm, tm, an⟩ = true :=
    decide_eq_true ⟨rfl, newSnapId_mem_afterHeads h3 hvmem⟩
  rw [@List.find?_cons_of_pos _
    (fun r : SnapRow =>
      decide (some r.volumeId = some vid ∧
        r.id ∈ (afterHeads db1 vid nm).filterMap (fun h => h.headSnapshotId)))
    ⟨newSnapId db1 vid nm, vid, nm, tm, an⟩ [] hpred]
  rfl

theorem afterSnaps_ids_nodup (db1 : DB) (vid : Nat) (nm : String) (tm : Nat)
    (an : Option String) (h1 : snapIdsNodup db1 = true) :
    ((afterSnaps db1 vid nm tm an).map (fun r => r.id)).Nodup := by
  unfold afterSnaps
  rw [List.map_append, List.nodup_append]
  refine ⟨?_, by simp, ?_⟩
  · unfold snapIdsNodup at h1
    rw [decide_eq_true_eq] at h1
    have hsub : List.Sublist (keptSnaps db1 vid nm) db1.snapshots :=
      List.filter_sublist _
    exact List.Nodup.sublist (List.Sublist.map (fun r => r.id) hsub) h1
  · intro i hi hi2
    rcases List.mem_map.mp hi with ⟨r, hr, hrid⟩
    have hlt := kept_id_lt hr
    have : i = newSnapId db1 vid nm := by
      rcases List.mem_map.mp hi2 with ⟨r2, hr2, hrid2⟩
      rcases hr2 with _ | ⟨_, hr2⟩
      · exact hrid2.symm
      · cases hr2
    omega

theorem victim_id_mem_dead {db1 : DB} {vid : Nat} {nm : String} {r : SnapRow}
    (hmem : r ∈ db1.snapshots) (hc : r.volumeId = vid ∧ r.name = nm) :
    r.id ∈ (victimSnaps db1 vid nm).map (fun r => r.id) :=
  List.mem_map_of_mem _ (List.mem_filter.mpr ⟨hmem, decide_eq_true hc⟩)

theorem afterDB_headsOK (db1 : DB) (vid : Nat) (nm : String) (tm : Nat)
    (an : Option String) (vols : List VolRow)
    (h2 : headsOK db1 = true) :
    headsOK ⟨vols, afterSnaps db1 vid nm tm an, afterHeads db1 vid nm⟩ = true := by
  unfold headsOK at h2 ⊢
  rw [List.all_eq_true] at h2 ⊢
  intro h3 hmem
  dsimp only at hmem ⊢
  rcases afterHeads_mem_inv hmem with ⟨hveq, hh⟩ | ⟨hne, hsn⟩
  · rw [headPointsOK_some hh, List.any_eq_true]
    refine ⟨⟨newSnapId db1 vid nm, vid, nm, tm, an⟩, ?_, ?_⟩
    · unfold afterSnaps
      rw [List.mem_append]
      right
      exact List.mem_singleton.mpr rfl
    · rw [Bool.and_eq_true, decide_eq_true_eq, decide_eq_true_eq]
      exact ⟨rfl, hveq.symm⟩
  · rcases hj : h3.headSnapshotId with _ | j
    · exact headPointsOK_of_none hj
    · rw [headPointsOK_some hj]
      obtain ⟨h0, h0mem, h0vol, hcase⟩ := setNullHeads_mem_inv hsn
      rcases hcase with hnone | ⟨hsame, hnd⟩
      · rw [hj] at hnone
        exact Option.noConfusion hnone
      · have h0id : h0.headSnapshotId = some j := by
          rw [← hsame, hj]
        have hok := h2 h0 h0mem
        rw [headPointsOK_some h0id] at hok
        rw [List.any_eq_true] at hok
        obtain ⟨r2, r2mem, r2p⟩ := hok
        rw [Bool.and_eq_true, decide_eq_true_eq, decide_eq_true_eq] at r2p
        obtain ⟨r2id, r2vol⟩ := r2p
        have hnv : ¬(r2.volumeId = vid ∧ r2.name = nm) := by
          intro hc
          exact absurd (r2id ▸ victim_id_mem_dead r2mem hc) (hnd j h0id)
        have r2kept : r2 ∈ keptSnaps db1 vid nm :=
          List.mem_filter.mpr ⟨r2mem, by
            rw [Bool.not_eq_true']
            exact decide_eq_false hnv⟩
        rw [List.any_eq_true]
        refine ⟨r2, ?_, ?_⟩
        · unfold afterSnaps
          rw [List.mem_append]
          exact Or.inl r2kept
        · rw [Bool.and_eq_true, decide_eq_true_eq, decide_eq_true_eq]
          exact ⟨r2id, by rw [r2vol, h0vol]⟩

theorem afterDB_headRowsExist (db1 : DB) (vid : Nat) (nm : String) (tm : Nat)
    (an : Option String) (h3re : headRowsExist db1 = true) :
    headRowsExist ⟨db1.volumes, afterSnaps db1 vid nm tm an,
      afterHeads db1 vid nm⟩ = true := by
  unfold headRowsExist at h3re ⊢
  rw [List.all_eq_true] at h3re ⊢
  intro vr hvr
  have hany := h3re vr hvr
  rw [List.any_eq_true] at hany
  obtain ⟨h0, h0mem, h0p⟩ := hany
  rw [decide_eq_true_eq] at h0p
  obtain ⟨h3, h3mem, h3vol⟩ := @afterHeads_volumeId_surj db1 vid nm h0 h0mem
  dsimp only
  rw [List.any_eq_true]
  exact ⟨h3, h3mem, decide_eq_true (by rw [h3vol, h0p])⟩

theorem registerVolume_obj_path (db : DB) (v : VolumeObj) :
    (registerVolume db v).2.path = v.path := by
  unfold registerVolume
  split
  · exact loadVolume_path _ _
  · rfl

/-- Master inversion for a successful `Snapshot.create()` over an index
satisfying the reachable-state invariants: the created object is hydrated
with its volume id `vid` and fresh snapshot id `k`; it is the head of its
volume and the sole head; the invariants are preserved; rows with other
names survive; and the new row is present.  The last two clauses relate
`vid` to the `volumes` lookup by path for an initially unhydrated volume
object. -/
theorem create_ok_spec {st st' : SotState} {s s' : SnapObj}
    (hinv : dbInv st.db = true)
    (h : snapshotCreate st s = .ok (st', s')) :
    ∃ vid k,
      s'.volume.id = some vid ∧
      s'.id = some k ∧
      s'.name = s.name ∧
      s'.volume.path = s.volume.path ∧
      snapshotIsHead st'.db s' = true ∧
      soleHead st'.db s' = true ∧
      dbInv st'.db = true ∧
      (∀ r ∈ st.db.snapshots, r.name ≠ s.name → r ∈ st'.db.snapshots) ∧
      (⟨k, vid, s.name, s.time, s.annot⟩ : SnapRow) ∈ st'.db.snapshots ∧
      (s.volume.id = none → ∀ vr0, st.db.findVolByPath s.volume.path = some vr0 →
        vid = vr0.id) ∧
      (s.volume.id = none →
        ∃ vr, st'.db.findVolByPath s.volume.path = some vr ∧ vr.id = vid) := by
  have hface : snapIdsNodup st.db = true ∧ headsOK st.db = true ∧
      headRowsExist st.db = true := by
    unfold dbInv at hinv
    rw [Bool.and_eq_true, Bool.and_eq_true] at hinv
    exact ⟨hinv.1.1, hinv.1.2, hinv.2⟩
  obtain ⟨hn0, hh0, hr0⟩ := hface
  have hn1 : snapIdsNodup (registerVolume st.db s.volume).1 = true := by
    rw [snapIdsNodup_registerVolume]
    exact hn0
  have hh1 : headsOK (registerVolume st.db s.volume).1 = true :=
    headsOK_registerVolume _ hh0
  have hr1 : headRowsExist (registerVolume st.db s.volume).1 = true :=
    headRowsExist_registerVolume _ hr0
  unfold snapshotCreate at h
  dsimp only at h
  rcases hcs : createSnapshotPrim (mkdirP st.fs s.volume.storageDir)
      s.volume.realpath s.path true with e | fs2
  · rw [hcs] at h
    exact absurd h (by simp)
  rw [hcs] at h
  dsimp only at h
  rcases hrs : registerSnapshot (registerVolume st.db s.volume).1
      { s with volume := (registerVolume st.db s.volume).2 } with e | p
  · rw [hrs] at h
    exact absurd h (by simp)
  rw [hrs] at h
  dsimp only at h
  obtain ⟨vid, hvid, hvmem, hdb2, hp2⟩ := registerSnapshot_ok hrs
  dsimp only at hvid hvmem hdb2 hp2
  obtain ⟨db2, s2⟩ := p
  dsimp only at h hdb2 hp2
  subst hp2
  dsimp only at h
  have hvsome : ((registerVolume st.db s.volume).2).id.isSome = true := by
    rw [hvid]
    rfl
  have hsh : setHead db2 (registerVolume st.db s.volume).2
      (⟨(registerVolume st.db s.volume).2, s.name, s.time,
        some (newSnapId (registerVolume st.db s.volume).1 vid s.name),
        s.annot⟩ : SnapObj) =
      .ok ({ db2 with
              heads := updHeads db2.heads (registerVolume st.db s.volume).2.id
                (some (newSnapId (registerVolume st.db s.volume).1 vid s.name)) },
        (registerVolume st.db s.volume).2,
        ⟨(registerVolume st.db s.volume).2, s.name, s.time,
          some (newSnapId (registerVolume st.db s.volume).1 vid s.name),
          s.annot⟩) :=
    setHead_loaded hvsome rfl
  rw [hsh] at h
  dsimp only at h
  injection h with h
  rw [Prod.mk.injEq] at h
  obtain ⟨hst, hs'⟩ := h
  subst hst
  subst hs'
  subst hdb2
  refine ⟨vid, newSnapId (registerVolume st.db s.volume).1 vid s.name,
    hvid, rfl, rfl, registerVolume_obj_path st.db s.volume, ?_, ?_, ?_, ?_, ?_,
    ?_, ?_⟩
  case _ =>
    unfold snapshotIsHead headOf
    dsimp only
    rw [loadVolume_of_isSome hvsome]
    have hfind := find?_afterSnaps (registerVolume st.db s.volume).1 vid s.name
      s.time s.annot hn1 hh1 hr1 hvmem
    unfold afterSnaps afterHeads at hfind
    simp only [hvid]
    rw [hfind]
    exact decide_eq_true rfl
  case _ =>
    unfold soleHead
    dsimp only
    have hall := afterHeads_all_point (registerVolume st.db s.volume).1 vid s.name
    unfold afterHeads at hall
    simp only [hvid]
    exact hall
  case _ =>
    unfold dbInv
    rw [Bool.and_eq_true, Bool.and_eq_true]
    refine ⟨⟨?_, ?_⟩, ?_⟩
    · unfold snapIdsNodup
      rw [decide_eq_true_eq]
      have hnd := afterSnaps_ids_nodup (registerVolume st.db s.volume).1 vid
        s.name s.time s.annot hn1
      unfold afterSnaps at hnd
      exact hnd
    · have hok := afterDB_headsOK (registerVolume st.db s.volume).1 vid s.name
        s.time s.annot (registerVolume st.db s.volume).1.volumes hh1
      unfold afterSnaps afterHeads at hok
      unfold headsOK at hok ⊢
      dsimp only at hok ⊢
      simp only [hvid]
      exact hok
    · have hre := afterDB_headRowsExist (registerVolume st.db s.volume).1 vid
        s.name s.time s.annot hr1
      unfold afterSnaps afterHeads at hre
      unfold headRowsExist at hre ⊢
      dsimp only at hre ⊢
      simp only [hvid]
      exact hre
  case _ =>
    intro r hr hname
    show r ∈ keptSnaps (registerVolume st.db s.volume).1 vid s.name ++ _
    rw [List.mem_append]
    left
    refine List.mem_filter.mpr ⟨?_, ?_⟩
    · rw [registerVolume_snapshots_eq]
      exact hr
    · rw [Bool.not_eq_true']
      exact decide_eq_false (fun hc => hname hc.2)
  case _ =>
    show (⟨newSnapId (registerVolume st.db s.volume).1 vid s.name, vid,
      s.name, s.time, s.annot⟩ : SnapRow) ∈
      keptSnaps (registerVolume st.db s.volume).1 vid s.name ++ _
    rw [List.mem_append]
    right
    exact List.mem_singleton.mpr rfl
  case _ =>
    intro hidnone vr0 hfind
    have hfound : (st.db.findVolByPath s.volume.path).isSome = true := by
      rw [hfind]
      rfl
    rw [registerVolume_of_found hfound] at hvid
    dsimp only at hvid
    unfold loadVolume at hvid
    simp only [hidnone, hfind] at hvid
    simp at hvid
    omega
  case _ =>
    intro hidnone
    by_cases hfound : (st.db.findVolByPath s.volume.path).isSome = true
    · obtain ⟨vr0, hvr0⟩ := Option.isSome_iff_exists.mp hfound
      rw [registerVolume_of_found hfound] at hvid
      dsimp only at hvid
      unfold loadVolume at hvid
      simp only [hidnone, hvr0] at hvid
      simp at hvid
      refine ⟨vr0, ?_, by omega⟩
      have hsame : (registerVolume st.db s.volume).1 = st.db := by
        rw [registerVolume_of_found hfound]
      show ((registerVolume st.db s.volume).1.volumes).find?
        (fun r => decide (r.path = s.volume.path)) = some vr0
      rw [hsame]
      exact hvr0
    · rw [registerVolume_of_missing hfound] at hvid
      dsimp only at hvid
      injection hvid with hvid
      have hnone : st.db.findVolByPath s.volume.path = none :=
        Option.not_isSome_iff_eq_none.mp hfound
      have hvols : (registerVolume st.db s.volume).1.volumes =
          st.db.volumes ++ [⟨freshVolId st.db, s.volume.path⟩] := by
        rw [registerVolume_of_missing hfound]
      refine ⟨⟨freshVolId st.db, s.volume.path⟩, ?_, hvid⟩
      show ((registerVolume st.db s.volume).1.volumes).find?
        (fun r => decide (r.path = s.volume.path)) =
        some ⟨freshVolId st.db, s.volume.path⟩
      rw [hvols, List.find?_append]
      unfold DB.findVolByPath at hnone
      rw [hnone]
      rw [@List.find?_cons_of_pos _
        (fun r : VolRow => decide (r.path = s.volume.path))
        ⟨freshVolId st.db, s.volume.path⟩ [] (decide_eq_true rfl)]
      rfl

/-- C5.  After a successful `Snapshot.create()` (over an index satisfying the
reachable-state invariants), `is_head()` of that snapshot is true and every
head row of its volume points at it (sole head); after a successful second
`create()` of a differently-named snapshot of the same volume, the head has
moved to the second snapshot while the first still appears (by name) in
`snapshots(volume)`. -/
theorem create_sets_sole_head (st st1 st2 : SotState) (s t s1 t1 : SnapObj)
    (hinv : dbInv st.db = true)
    (hsvol : s.volume.id = none) (htvol : t.volume.id = none)
    (hpath : t.volume.path = s.volume.path)
    (hname : t.name ≠ s.name)
    (h1 : snapshotCreate st s = .ok (st1, s1))
    (h2 : snapshotCreate st1 t = .ok (st2, t1)) :
    snapshotIsHead st1.db s1 = true ∧
    soleHead st1.db s1 = true ∧
    snapshotIsHead st2.db t1 = true ∧
    soleHead st2.db t1 = true ∧
    t1.volume.id = s1.volume.id ∧
    s.name ∈ ((snapshotsOf st2.db s1.volume).2.map (fun r => r.name)) := by
  obtain ⟨vid1, k1, hs1vid, hs1id, hs1nm, hs1path, hhead1, hsole1, hinv1,
    hpres1, hrow1, hpre1, hpost1⟩ := create_ok_spec hinv h1
  obtain ⟨vid2, k2, ht1vid, ht1id, ht1nm, ht1path, hhead2, hsole2, hinv2,
    hpres2, hrow2, hpre2, hpost2⟩ := create_ok_spec hinv1 h2
  obtain ⟨vr, hvr, hvrid⟩ := hpost1 hsvol
  have hvid21 : vid2 = vid1 := by
    have heq := hpre2 htvol vr (by rw [hpath]; exact hvr)
    rw [heq, hvrid]
  refine ⟨hhead1, hsole1, hhead2, hsole2, ?_, ?_⟩
  · rw [ht1vid, hs1vid, hvid21]
  · have hrow1mem : (⟨k1, vid1, s.name, s.time, s.annot⟩ : SnapRow) ∈
        st2.db.snapshots :=
      hpres2 _ hrow1 (fun hc => hname hc.symm)
    unfold snapshotsOf
    dsimp only
    rw [loadVolume_of_isSome (by rw [hs1vid]; rfl)]
    rw [List.mem_map]
    refine ⟨⟨k1, vid1, s.name, s.time, s.annot⟩, ?_, rfl⟩
    refine List.mem_filter.mpr ⟨hrow1mem, ?_⟩
    exact decide_eq_true (by rw [hs1vid])

def c5St : SotState := ⟨⟨[(.real "v", ⟨true, false, false, 0, 7⟩)]⟩, ⟨[], [], []⟩⟩

def c5S : SnapObj := ⟨⟨"v", none⟩, "a", 1, none, none⟩

def c5T : SnapObj := ⟨⟨"v", none⟩, "b", 2, none, none⟩

def c5St1 : SotState :=
  ⟨⟨[(.snap "v" "a", ⟨true, true, false, 0, 7⟩),
     (.snapDir "v", ⟨false, false, false, 0, 0⟩),
     (.real "v", ⟨true, false, false, 0, 7⟩)]⟩,
    ⟨[⟨1, "v"⟩], [⟨1, 1, "a", 1, none⟩], [⟨1, some 1⟩]⟩⟩

def c5S1 : SnapObj := ⟨⟨"v", some 1⟩, "a", 1, some 1, none⟩

def c5St2 : SotState :=
  ⟨⟨[(.snap "v" "b", ⟨true, true, false, 0, 7⟩),
     (.snap "v" "a", ⟨true, true, false, 0, 7⟩),
     (.snapDir "v", ⟨false, false, false, 0, 0⟩),
     (.real "v", ⟨true, false, false, 0, 7⟩)]⟩,
    ⟨[⟨1, "v"⟩], [⟨1, 1, "a", 1, none⟩, ⟨2, 1, "b", 2, none⟩], [⟨1, some 2⟩]⟩⟩

def c5T1 : SnapObj := ⟨⟨"v", some 1⟩, "b", 2, some 2, none⟩

/-- Witness for C5: two consecutive creates (`"a"` then `"b"`) on a fresh
volume — after the first, `"a"` is the sole head; after the second, the head
has moved to `"b"` and `"a"` is still listed. -/
theorem create_sets_sole_head_witness :
    snapshotIsHead c5St1.db c5S1 = true ∧
    soleHead c5St1.db c5S1 = true ∧
    snapshotIsHead c5St2.db c5T1 = true ∧
    soleHead c5St2.db c5T1 = true ∧
    c5T1.volume.id = c5S1.volume.id ∧
    "a" ∈ ((snapshotsOf c5St2.db c5S1.volume).2.map (fun r => r.name)) :=
  create_sets_sole_head c5St c5St1 c5St2 c5S c5T c5S1 c5T1
    rfl rfl rfl rfl (by decide) rfl rfl
